import Mathlib

/-!
Verification of the GBFS fleet-state diffing engine and nearest-station
matcher implemented in `src/main.py`.

The Python program tracks free-floating rental bikes from a GBFS feed,
infers trips by diffing consecutive per-bike observations, resolves trip
endpoints against a longitude-sorted station list, and finally sorts the
accumulated trip log by its `started_at` ISO-8601 strings.

Modelling conventions:
* Python floats (coordinates, distances) are modelled as rationals `ℚ`.
* The function `distance` of the source computes
  `R * sqrt(dLat^2 + (cos(meanLat) * dLon)^2)` with transcendental
  float operations (`math.radians`, `math.cos`, `math.sqrt`).  Every use
  the program makes of it is a comparison of its value against a constant
  threshold, so the whole development is parameterised by an arbitrary
  distance function `d : Pos → Pos → ℚ`; concrete instantiations use the
  computable surrogate `approxDist` below.
* Fallible operations (Python list indexing, which raises `IndexError`
  when out of range) return `Option`, with `none` marking the raised
  exception.
* Python `dict` state is modelled by association lists keyed by the
  GBFS `bike_id` string.
* `datetime.fromtimestamp(e, tz=timezone.utc).isoformat(sep=" ")` from
  the Python standard library is modelled for the nonnegative integral
  epochs GBFS delivers: proleptic Gregorian date obtained by day-by-day
  succession from 1970-01-01, rendered as
  `YYYY-MM-DD HH:MM:SS+00:00` with zero-padded decimal fields.
-/

namespace GbfsTrip

/-- A latitude/longitude pair, the duck-typed interface the Python
`distance` helper expects of its two arguments. -/
structure Pos where
  lat : ℚ
  lon : ℚ
  deriving DecidableEq

/-- The type of the planar-distance oracle threading through the model.
`src/main.py` line 84: `distance(obj1, obj2)`. -/
abbrev Dist : Type := Pos → Pos → ℚ

/-- A computable surrogate for the float equirectangular distance, used to
instantiate the distance parameter on concrete inputs.  The source formula
is `6371000 * sqrt(dLat_rad^2 + (cos(meanLat) * dLon_rad)^2)`; near the
equator (all concrete inputs below have latitude 0) that is
`6371000 * (pi / 180) * |dLon| ≈ 111194.93 * |dLon|`.  The surrogate
`111195 * (|dLat| + |dLon|)` agrees with the float value on every
threshold comparison made at the concrete inputs used in this file, all of
which sit far from the 10 m and 50 m thresholds. -/
def approxDist (p q : Pos) : ℚ :=
  111195 * (|q.lat - p.lat| + |q.lon - p.lon|)

/-- A station record, `src/main.py` lines 29-39 (`class Station`).  The
`id` is the JSON `station_id`; the synthesized flex-parking station uses
the integer `0` there. -/
structure Station where
  id : ℤ
  name : String
  lat : ℚ
  lon : ℚ
  deriving DecidableEq

/-- The coordinate pair of a station. -/
def Station.pos (s : Station) : Pos := ⟨s.lat, s.lon⟩

/-- A tracked bike, `src/main.py` lines 42-51 (`class Bike`): coordinates
plus the `last_seen` timestamp it was constructed with. -/
structure Bike where
  lat : ℚ
  lon : ℚ
  last_seen : ℤ
  deriving DecidableEq

/-- The coordinate pair of a bike. -/
def Bike.pos (b : Bike) : Pos := ⟨b.lat, b.lon⟩

/-- `Bike.away_from`, `src/main.py` lines 53-57: more than 50 meters away
(GPS-noise floor). -/
def Bike.away_from (d : Dist) (b other : Bike) : Prop :=
  d b.pos other.pos > 50

instance (d : Dist) (b other : Bike) : Decidable (b.away_from d other) := by
  unfold Bike.away_from; infer_instance

/-- `Bike.has_moved`, `src/main.py` lines 59-61: the coordinates differ. -/
def Bike.has_moved (b other : Bike) : Prop :=
  b.lat ≠ other.lat ∨ b.lon ≠ other.lon

instance (b other : Bike) : Decidable (b.has_moved other) := by
  unfold Bike.has_moved; infer_instance

/-- Python's `bisect.bisect_left(station_list, self)` (library function,
called at `src/main.py` line 68).  On a list sorted by longitude it
returns the leftmost insertion index of the query, i.e. the number of
stations whose longitude is strictly below it; comparisons go through
`Station.__lt__`/`Bike.__lt__`, which compare `lon` (lines 38-39, 50-51).
The result ranges over `0 .. sl.length` — in particular it can be equal to
`sl.length`, one past the last valid index. -/
def bisect_left (sl : List Station) (lon : ℚ) : ℕ :=
  sl.countP (fun s => decide (s.lon < lon))

/-- Python's `bisect.bisect_right(station_list, self)` (called at
`src/main.py` line 69): the rightmost insertion index, i.e. the number of
stations whose longitude is at most the query's. -/
def bisect_right (sl : List Station) (lon : ℚ) : ℕ :=
  sl.countP (fun s => decide (s.lon ≤ lon))

/-- The synthesized flex-parking placeholder, `src/main.py` lines 76-81:
id `0`, name `"Flex parking"`, coordinates of the query bike. -/
def flexStation (b : Bike) : Station :=
  ⟨0, "Flex parking", b.lat, b.lon⟩

/-- `Bike.find_station`, `src/main.py` lines 63-81.

```
i1 = bisect.bisect_left(station_list, self)
i2 = bisect.bisect_right(station_list, self)
d1 = distance(station_list[i1], self) if i1 is not None else float("inf")
d2 = distance(station_list[i2], self) if i2 is not None else float("inf")
if d1 < d2 and d1 < 10: return station_list[i1]
if d2 < 10: return station_list[i2]
... return Station(flex)
```

`bisect_left`/`bisect_right` never return `None`, so the two `is not None`
guards are always true and the `float("inf")` branches are dead code; the
indexing `station_list[i1]`/`station_list[i2]` is performed
unconditionally and raises `IndexError` (modelled by `none`) whenever the
insertion index equals `len(station_list)`. -/
def find_station (d : Dist) (b : Bike) (sl : List Station) : Option Station :=
  let i1 := bisect_left sl b.lon
  let i2 := bisect_right sl b.lon
  match sl[i1]? with
  | none => none
  | some s1 =>
    match sl[i2]? with
    | none => none
    | some s2 =>
      let d1 := d s1.pos b.pos
      let d2 := d s2.pos b.pos
      if d1 < d2 ∧ d1 < 10 then some s1
      else if d2 < 10 then some s2
      else some (flexStation b)

/-! ### Calendar and ISO-8601 rendering

`new_trip` (`src/main.py` lines 12-26) stores
`datetime.fromtimestamp(t, tz=timezone.utc).isoformat(sep=" ")` for the
two trip endpoints.  The standard library's conversion is the proleptic
Gregorian calendar; it is modelled here by day-by-day succession from the
Unix epoch, which is extensionally the same function on the nonnegative
epochs the program receives. -/

/-- Gregorian leap-year rule. -/
def isLeap (y : ℕ) : Bool :=
  y % 4 == 0 && (y % 100 != 0 || y % 400 == 0)

/-- Number of days of month `m` (1-12) in year `y`. -/
def daysInMonth (y m : ℕ) : ℕ :=
  if m = 2 then (if isLeap y then 29 else 28)
  else if m = 4 ∨ m = 6 ∨ m = 9 ∨ m = 11 then 30
  else 31

/-- A calendar date. -/
structure Date where
  year : ℕ
  month : ℕ
  day : ℕ
  deriving DecidableEq

/-- The day after `t` in the proleptic Gregorian calendar. -/
def nextDay (t : Date) : Date :=
  if t.day < daysInMonth t.year t.month then ⟨t.year, t.month, t.day + 1⟩
  else if t.month < 12 then ⟨t.year, t.month + 1, 1⟩
  else ⟨t.year + 1, 1, 1⟩

/-- The Gregorian date `n` days after 1970-01-01. -/
def dateOfDays (n : ℕ) : Date :=
  nextDay^[n] ⟨1970, 1, 1⟩

/-- The decimal digit character for `n ≤ 9`. -/
def digitCh (n : ℕ) : Char := Char.ofNat (48 + n)

/-- Two-digit zero-padded decimal rendering of `n ≤ 99`. -/
def pad2 (n : ℕ) : List Char := [digitCh (n / 10), digitCh (n % 10)]

/-- Four-digit zero-padded decimal rendering of `n ≤ 9999`. -/
def pad4 (n : ℕ) : List Char := pad2 (n / 100) ++ pad2 (n % 100)

/-- `HH:MM:SS` for a second-of-day `sod < 86400`. -/
def todChars (sod : ℕ) : List Char :=
  pad2 (sod / 3600) ++ ':' :: pad2 (sod % 3600 / 60) ++ ':' :: pad2 (sod % 60)

/-- The character sequence of
`datetime.fromtimestamp(e, tz=timezone.utc).isoformat(sep=" ")` for a
nonnegative integral epoch `e`: `YYYY-MM-DD HH:MM:SS+00:00`. -/
def isoChars (e : ℕ) : List Char :=
  pad4 (dateOfDays (e / 86400)).year
    ++ '-' :: pad2 (dateOfDays (e / 86400)).month
    ++ '-' :: pad2 (dateOfDays (e / 86400)).day
    ++ ' ' :: todChars (e % 86400)
    ++ ['+', '0', '0', ':', '0', '0']

/-- The ISO-8601 UTC string for a nonnegative epoch. -/
def epochISO (e : ℕ) : String := (isoChars e).asString

/-- The ISO-8601 UTC string the program stores for an epoch; the feed's
epochs are nonnegative, Python's handling of pre-1970 instants is not
needed and not modelled. -/
def epochISOz (e : ℤ) : String := epochISO e.toNat

/-- Strict lexicographic order on dates. -/
def dateLt (a b : Date) : Prop :=
  a.year < b.year ∨
    (a.year = b.year ∧ (a.month < b.month ∨ (a.month = b.month ∧ a.day < b.day)))

/-- Field bounds maintained by `nextDay`: month in 1-12, day in 1-31. -/
def DateOk (t : Date) : Prop :=
  1 ≤ t.month ∧ t.month ≤ 12 ∧ 1 ≤ t.day ∧ t.day ≤ 31

/-! ### Trips -/

/-- One finalized trip record, the dict built by `new_trip`
(`src/main.py` lines 12-26).  The Python dict stores the start instant
only as the rendered string `started_at`; the field `startedAtEpoch` keeps
the epoch that produced it (the spec's conceptual `startedAtEpoch`,
design §3) so ordering statements can refer to it.  It is written by
`new_trip` and read by nothing else. -/
structure Trip where
  started_at : String
  ended_at : String
  duration : ℤ
  start_station_id : ℤ
  start_station_name : String
  start_station_latitude : ℚ
  start_station_longitude : ℚ
  end_station_id : ℤ
  end_station_name : String
  end_station_latitude : ℚ
  end_station_longitude : ℚ
  startedAtEpoch : ℤ
  deriving DecidableEq

/-- `new_trip`, `src/main.py` lines 12-26. -/
def new_trip (start_station end_station : Station) (started_at ended_at : ℤ) :
    Trip where
  started_at := epochISOz started_at
  ended_at := epochISOz ended_at
  duration := ended_at - started_at
  start_station_id := start_station.id
  start_station_name := start_station.name
  start_station_latitude := start_station.lat
  start_station_longitude := start_station.lon
  end_station_id := end_station.id
  end_station_name := end_station.name
  end_station_latitude := end_station.lat
  end_station_longitude := end_station.lon
  startedAtEpoch := started_at

/-- The comparison used by the terminal sort
`trips.sort(key=lambda k: k["started_at"])`, `src/main.py` line 186:
ordering of the `started_at` strings (Python compares strings by code
point, as Lean's `String` order does). -/
def trip_key_le (a b : Trip) : Prop :=
  a.started_at ≤ b.started_at

instance trip_key_le_dec : DecidableRel trip_key_le := fun a b =>
  decidable_of_iff (¬ b.started_at.toList < a.started_at.toList)
    (not_lt.trans String.le_iff_toList_le.symm)

instance : IsTrans Trip trip_key_le :=
  ⟨fun _ _ _ h1 h2 => le_trans (α := String) h1 h2⟩

instance : IsTotal Trip trip_key_le :=
  ⟨fun a b => le_total a.started_at b.started_at⟩

/-- The terminal sort of the trip log, `src/main.py` line 186.  Python's
`list.sort` is a comparison sort producing a list sorted under the key
order; it is modelled by insertion sort under `trip_key_le`. -/
def sortTrips (l : List Trip) : List Trip :=
  List.insertionSort trip_key_le l

/-! ### The registry and the per-poll reconciliation -/

/-- One decoded entry of `free_bike_status.json`'s `bikes` array
(`src/main.py` lines 140-142, 164). -/
structure BikeJson where
  bike_id : String
  lat : ℚ
  lon : ℚ
  is_disabled : ℤ
  deriving DecidableEq

/-- One decoded `free_bike_status.json` payload (`src/main.py`
lines 135-140). -/
structure Payload where
  last_updated : ℤ
  ttl : ℤ
  bikes : List BikeJson
  deriving DecidableEq

/-- `class BikeRegistry` state, `src/main.py` lines 98-120: the tracked
fleet (`self.bikes`, a dict keyed by `bike_id`), the last processed
payload's `ttl` and `last_updated` (both `None` before the first poll),
the trip log, and the longitude-sorted station list. -/
structure BikeRegistry where
  city_name : String
  bikes : List (String × Bike)
  ttl : Option ℤ
  last_updated : Option ℤ
  trips : List Trip
  stations : List Station
  deriving DecidableEq

/-- Python dict assignment `self.bikes[bike_id] = v`: replace the entry
if the key is present, append it otherwise. -/
def setBike (bs : List (String × Bike)) (k : String) (v : Bike) :
    List (String × Bike) :=
  if (bs.lookup k).isSome then
    bs.map (fun p => if p.1 = k then (k, v) else p)
  else bs ++ [(k, v)]

/-- The body of the per-bike loop of `BikeRegistry.update`,
`src/main.py` lines 141-165, acting on the pair (fleet dict, trip log).
`lu` is `self.last_updated`, already set to the new payload's value when
the loop runs (line 137), and is the `last_seen` of every `Bike`
constructed from this payload (line 143).  A `none` result models the
uncaught `IndexError` that `find_station` can raise. -/
def processBike (d : Dist) (stations : List Station) (lu : ℤ)
    (acc : List (String × Bike) × List Trip) (bj : BikeJson) :
    Option (List (String × Bike) × List Trip) :=
  let cur : Bike := ⟨bj.lat, bj.lon, lu⟩
  match acc.1.lookup bj.bike_id with
  | some old_bike =>
    if old_bike.away_from d cur ∧ lu - old_bike.last_seen > 100 then
      match find_station d old_bike stations with
      | none => none
      | some start_station =>
        match find_station d cur stations with
        | none => none
        | some end_station =>
          some (setBike acc.1 bj.bike_id cur,
            acc.2 ++ [new_trip start_station end_station old_bike.last_seen lu])
    else
      some (setBike acc.1 bj.bike_id
        (if old_bike.has_moved cur then cur
         else { old_bike with last_seen := lu }), acc.2)
  | none =>
    if bj.is_disabled = 0 then some (setBike acc.1 bj.bike_id cur, acc.2)
    else some acc

/-- `BikeRegistry.update`, `src/main.py` lines 122-167.  The network fetch
and JSON decoding are the collaborator's; their outcome enters as the
`payload` argument, with `none` modelling the caught fetch/decode failure
(lines 129-134: log and return, state untouched).  A payload repeating the
stored `last_updated` returns immediately (lines 135-136); otherwise
`last_updated` and `ttl` are overwritten and every entry of `bikes` is
reconciled in order. -/
def BikeRegistry.update (d : Dist) (st : BikeRegistry)
    (payload : Option Payload) : Option BikeRegistry :=
  match payload with
  | none => some st
  | some pl =>
    if st.last_updated = some pl.last_updated then some st
    else
      match pl.bikes.foldlM (processBike d st.stations pl.last_updated)
          (st.bikes, st.trips) with
      | none => none
      | some res =>
        some { st with
          last_updated := some pl.last_updated
          ttl := some pl.ttl
          bikes := res.1
          trips := res.2 }

/-- The comparison `Station.__lt__` sorts by (`src/main.py` lines 38-39,
120). -/
def station_le (a b : Station) : Prop := a.lon ≤ b.lon

instance : DecidableRel station_le := fun a b => by
  unfold station_le; infer_instance

/-- `self.stations.sort()`, `src/main.py` line 120. -/
def sortStations (l : List Station) : List Station :=
  List.insertionSort station_le l

/-- `BikeRegistry.__init__`, `src/main.py` lines 103-120.  The fetch and
parse of `station_information.json` is the collaborator's; `none` stands
for its failure (`IOError` / `JSONDecodeError`), on which the constructor
calls `sys.exit` — modelled as `none` (no registry produced).  Any decoded
station list, including the empty one, yields a registry. -/
def BikeRegistry.init (city_name : String)
    (stations_json : Option (List Station)) : Option BikeRegistry :=
  match stations_json with
  | none => none
  | some l =>
    some { city_name := city_name, bikes := [], ttl := none,
           last_updated := none, trips := [], stations := sortStations l }

/-! ### Concrete inputs used by witnesses and counterexamples -/

/-- A trivially-zero distance oracle for concrete runs whose claims do
not depend on distances. -/
def zeroDist : Dist := fun _ _ => 0

/-- C2 witness input: a station exactly at the query longitude and one to
its right. -/
def c2w_sl : List Station := [⟨1, "At", 0, 0⟩, ⟨2, "East", 0, 1⟩]

/-- C2 witness bike, longitude equal to the first station's. -/
def c2w_bike : Bike := ⟨0, 0, 0⟩

/-- C2 witness distance oracle: 5 meters to the station at longitude 0,
20 meters to anything else. -/
def c2w_d : Dist := fun p _ => if p.lon = 0 then 5 else 20

/-- C2 counterexample data: a station about 1.1 m west of the query
point. -/
def c2_near : Station := ⟨1, "Near", 0, -1/100000⟩

/-- C2 counterexample data: a station about 111 km east of the query
point. -/
def c2_far : Station := ⟨2, "Far", 0, 1⟩

/-- C2 counterexample query bike at the origin. -/
def c2_bike : Bike := ⟨0, 0, 0⟩

/-- C3 witness station list: two stations bracketing longitude 0. -/
def c3w_sl : List Station := [⟨1, "A", 0, 0⟩, ⟨2, "B", 0, 1⟩]

/-- C3 witness bike at the origin. -/
def c3w_bike : Bike := ⟨0, 0, 0⟩

/-- C3 witness distance oracle: everything is 11 meters away. -/
def c3w_d : Dist := fun _ _ => 11

/-- C4 witness distance oracle: everything is 60 meters from everything. -/
def c4w_d : Dist := fun _ _ => 60

/-- C4 witness station list: one station, far from both observations. -/
def c4w_stations : List Station := [⟨1, "S", 5, 5⟩]

/-- C4 witness stored observation at the origin, seen at epoch 0. -/
def c4w_old : Bike := ⟨0, 0, 0⟩

/-- C4 witness payload entry: the same bike one degree east. -/
def c4w_bj : BikeJson := ⟨"b", 0, 1, 0⟩

/-- C5 witness distance oracle: everything is 30 meters from everything
(below the 50 m threshold). -/
def c5w_d : Dist := fun _ _ => 30

/-- C5 witness stored observation. -/
def c5w_old : Bike := ⟨0, 0, 1000⟩

/-- C5 witness payload entry: same bike at a slightly different
longitude. -/
def c5w_bj : BikeJson := ⟨"b", 0, 3, 0⟩

/-- C6 witness registry with a previously processed payload at epoch
500. -/
def c6w_st : BikeRegistry :=
  ⟨"Berlin", [("b", ⟨0, 0, 100⟩)], some 60, some 500, [], [⟨1, "A", 0, 0⟩]⟩

/-- C6 witness payload repeating `last_updated = 500`. -/
def c6w_pl : Payload := ⟨500, 60, [⟨"b", 0, 0, 0⟩]⟩

/-- C7 registry that has processed a payload with `last_updated = 200`. -/
def c7_st : BikeRegistry := ⟨"Berlin", [], some 60, some 200, [], []⟩

/-- C7 payload whose `last_updated = 100` regresses below the stored
200. -/
def c7_pl : Payload := ⟨100, 10, [⟨"b1", 1, 2, 0⟩]⟩

/-- C7: the state actually produced from `c7_st` by the regressed payload
`c7_pl`: the bike is inserted and `last_updated`/`ttl` take the regressed
values. -/
def c7_st2 : BikeRegistry :=
  ⟨"Berlin", [("b1", ⟨1, 2, 100⟩)], some 10, some 100, [], []⟩

/-- C9 witness: a trip starting at epoch 90000 (1970-01-02 01:00:00). -/
def c9w_t1 : Trip := new_trip ⟨1, "A", 0, 0⟩ ⟨2, "B", 0, 1⟩ 90000 90500

/-- C9 witness: a trip starting at epoch 100 (1970-01-01 00:01:40). -/
def c9w_t2 : Trip := new_trip ⟨1, "A", 0, 0⟩ ⟨2, "B", 0, 1⟩ 100 200

/-- C10 witness: a fresh registry with no tracked bikes and an empty
station list. -/
def c10_st : BikeRegistry := ⟨"Berlin", [], none, none, [], []⟩

/-- C10 witness payload: a single never-seen, disabled bike. -/
def c10_pl : Payload := ⟨100, 10, [⟨"bad", 3, 4, 1⟩]⟩

/-- C10 witness: the state `c10_pl` produces from `c10_st` (the disabled
bike is not inserted). -/
def c10_st2 : BikeRegistry := ⟨"Berlin", [], some 10, some 100, [], []⟩

/-! ## Theorems -/

/-- Helper: once both indexing operations succeed, `find_station` is the
two-candidate threshold test of `src/main.py` lines 72-81. -/
theorem find_station_eq_ite (d : Dist) (b : Bike) (sl : List Station)
    (s1 s2 : Station)
    (h1 : sl[bisect_left sl b.lon]? = some s1)
    (h2 : sl[bisect_right sl b.lon]? = some s2) :
    find_station d b sl =
      (if d s1.pos b.pos < d s2.pos b.pos ∧ d s1.pos b.pos < 10 then some s1
       else if d s2.pos b.pos < 10 then some s2
       else some (flexStation b)) := by
  simp only [find_station, h1, h2]

/-- C1: the nearest-station lookup of `src/main.py` crashes with an
`IndexError` (modelled by `none`) instead of returning a station or the
flex placeholder, both on the empty station list and whenever the query
longitude is at or beyond the longitude of the last station: `bisect`
returns insertion index `len(station_list)` there and the `is not None`
guards on lines 70-71 are dead code (`bisect` never returns `None`), so
`station_list[i1]` is evaluated out of range. -/
theorem C1_find_station_out_of_bounds :
    find_station approxDist ⟨0, 0, 0⟩ [] = none ∧
    find_station approxDist ⟨0, 1, 0⟩ [⟨7, "Solo", 0, 0⟩] = none ∧
    find_station approxDist ⟨0, 0, 0⟩ [⟨7, "Solo", 0, 0⟩] = none := by
  refine ⟨rfl, ?_, ?_⟩ <;>
    · show find_station _ _ _ = none
      unfold find_station bisect_left bisect_right
      norm_num [List.countP_cons]

/-- C2 (amended): the two candidates `find_station` evaluates are the
stations at index `bisect_left` (the station *at* the insertion position)
and at index `bisect_right` (the first station past the equal-longitude
run) — both on the right-hand side of the query longitude; the station
immediately to the left of the insertion position is never examined.  If
the closer of these two candidates is within 10 meters it is returned
(with the `bisect_right` candidate winning ties). -/
theorem C2_right_side_candidates (d : Dist) (b : Bike) (sl : List Station)
    (s1 s2 : Station)
    (h1 : sl[bisect_left sl b.lon]? = some s1)
    (h2 : sl[bisect_right sl b.lon]? = some s2)
    (hmin : min (d s1.pos b.pos) (d s2.pos b.pos) < 10) :
    find_station d b sl = some (if d s1.pos b.pos < d s2.pos b.pos then s1 else s2) ∧
    d (if d s1.pos b.pos < d s2.pos b.pos then s1 else s2).pos b.pos < 10 := by
  have key := find_station_eq_ite d b sl s1 s2 h1 h2
  rcases lt_or_le (d s1.pos b.pos) (d s2.pos b.pos) with hlt | hle
  · have h10 : d s1.pos b.pos < 10 := by
      rwa [min_eq_left hlt.le] at hmin
    rw [key, if_pos ⟨hlt, h10⟩, if_pos hlt]
    exact ⟨rfl, h10⟩
  · have h10 : d s2.pos b.pos < 10 := by
      rwa [min_eq_right hle] at hmin
    rw [key, if_neg (fun h => absurd h.1 (not_lt.mpr hle)), if_pos h10,
      if_neg (not_lt.mpr hle)]
    exact ⟨rfl, h10⟩

/-- C2 witness: at a concrete input whose two bisect candidates both
exist, with the closer one 5 m away, `find_station` returns that
candidate. -/
theorem C2_right_side_candidates_witness :
    c2w_sl[bisect_left c2w_sl c2w_bike.lon]? = some ⟨1, "At", 0, 0⟩ ∧
    c2w_sl[bisect_right c2w_sl c2w_bike.lon]? = some ⟨2, "East", 0, 1⟩ ∧
    min (c2w_d (Station.mk 1 "At" 0 0).pos c2w_bike.pos)
        (c2w_d (Station.mk 2 "East" 0 1).pos c2w_bike.pos) < 10 ∧
    find_station c2w_d c2w_bike c2w_sl =
      some (if c2w_d (Station.mk 1 "At" 0 0).pos c2w_bike.pos <
              c2w_d (Station.mk 2 "East" 0 1).pos c2w_bike.pos
            then ⟨1, "At", 0, 0⟩ else ⟨2, "East", 0, 1⟩) :=
  ⟨by decide, by decide, by decide,
    (C2_right_side_candidates c2w_d c2w_bike c2w_sl _ _
      (by decide) (by decide) (by decide)).1⟩

/-- C2 counterexample: the left neighbor of the insertion position
(`c2_near`, about 1.1 m away, well within 10 m and far closer than the
right neighbor `c2_far`, about 111 km away) is *not* returned: the lookup
returns the flex placeholder, because lines 68-75 of `src/main.py` index
the list at `bisect_left` and `bisect_right` (both 1 here, i.e. `c2_far`)
and never at the left-neighbor index `bisect_left - 1 = 0`. -/
theorem C2_left_neighbor_ignored :
    approxDist c2_near.pos c2_bike.pos < 10 ∧
    approxDist c2_near.pos c2_bike.pos < approxDist c2_far.pos c2_bike.pos ∧
    bisect_left [c2_near, c2_far] c2_bike.lon = 1 ∧
    bisect_right [c2_near, c2_far] c2_bike.lon = 1 ∧
    [c2_near, c2_far][(1 : ℕ) - 1]? = some c2_near ∧
    find_station approxDist c2_bike [c2_near, c2_far] = some (flexStation c2_bike) ∧
    flexStation c2_bike ≠ c2_near := by
  have hdn : approxDist c2_near.pos c2_bike.pos = 111195/100000 := by
    norm_num [approxDist, c2_near, c2_bike, Station.pos, Bike.pos, abs_of_nonneg]
  have hdf : approxDist c2_far.pos c2_bike.pos = 111195 := by
    norm_num [approxDist, c2_far, c2_bike, Station.pos, Bike.pos]
  have hbl : bisect_left [c2_near, c2_far] c2_bike.lon = 1 := by
    norm_num [bisect_left, List.countP_cons, c2_near, c2_far, c2_bike]
  have hbr : bisect_right [c2_near, c2_far] c2_bike.lon = 1 := by
    norm_num [bisect_right, List.countP_cons, c2_near, c2_far, c2_bike]
  refine ⟨by rw [hdn]; norm_num, by rw [hdn, hdf]; norm_num, hbl, hbr, rfl, ?_, ?_⟩
  · simp only [find_station, hbl, hbr, List.getElem?_cons_succ,
      List.getElem?_cons_zero]
    rw [hdf, if_neg (by norm_num), if_neg (by norm_num)]
  · simp only [ne_eq, flexStation, c2_near, c2_bike, Station.mk.injEq]
    norm_num

/-- C3: whenever both evaluated candidates (the stations at the
`bisect_left` and `bisect_right` indices) are at least 10 meters away,
`find_station` returns the synthesized flex-parking station: id `0`, name
`"Flex parking"`, and the query bike's own coordinates
(`src/main.py` lines 76-81). -/
theorem C3_flex_placeholder (d : Dist) (b : Bike) (sl : List Station)
    (s1 s2 : Station)
    (h1 : sl[bisect_left sl b.lon]? = some s1)
    (h2 : sl[bisect_right sl b.lon]? = some s2)
    (hd1 : 10 ≤ d s1.pos b.pos) (hd2 : 10 ≤ d s2.pos b.pos) :
    find_station d b sl = some ⟨0, "Flex parking", b.lat, b.lon⟩ := by
  rw [find_station_eq_ite d b sl s1 s2 h1 h2,
    if_neg (fun h => absurd h.2 (not_lt.mpr hd1)), if_neg (not_lt.mpr hd2)]
  rfl

/-- C3 witness: with both candidates 11 m away the lookup returns the
flex-parking placeholder carrying the query's coordinates. -/
theorem C3_flex_placeholder_witness :
    c3w_sl[bisect_left c3w_sl c3w_bike.lon]? = some ⟨1, "A", 0, 0⟩ ∧
    c3w_sl[bisect_right c3w_sl c3w_bike.lon]? = some ⟨2, "B", 0, 1⟩ ∧
    (10 : ℚ) ≤ 11 ∧
    find_station c3w_d c3w_bike c3w_sl =
      some ⟨0, "Flex parking", c3w_bike.lat, c3w_bike.lon⟩ :=
  ⟨by decide, by decide, by decide,
    C3_flex_placeholder c3w_d c3w_bike c3w_sl ⟨1, "A", 0, 0⟩ ⟨2, "B", 0, 1⟩
      (by decide) (by decide) (by decide) (by decide)⟩

/-- C4: with a tracked previous observation `old_bike`, the
reconciliation of `src/main.py` lines 144-163 emits a trip exactly under
`distance(old, cur) > 50 ∧ lu - old.last_seen > 100`; when it does, the
trip's start station is resolved from `old_bike`'s position, its end
station from the new observation's, its start time is `old_bike`'s
timestamp and its end time the payload's `last_updated`, and the stored
entry is replaced by the new observation; when either threshold fails no
trip is appended. -/
theorem C4_trip_iff_thresholds (d : Dist) (stations : List Station) (lu : ℤ)
    (bikes : List (String × Bike)) (trips : List Trip) (bj : BikeJson)
    (old_bike : Bike)
    (hold : bikes.lookup bj.bike_id = some old_bike) :
    ((old_bike.away_from d ⟨bj.lat, bj.lon, lu⟩ ∧ lu - old_bike.last_seen > 100) →
      ∀ ss es, find_station d old_bike stations = some ss →
        find_station d (⟨bj.lat, bj.lon, lu⟩ : Bike) stations = some es →
        processBike d stations lu (bikes, trips) bj =
          some (setBike bikes bj.bike_id ⟨bj.lat, bj.lon, lu⟩,
            trips ++ [new_trip ss es old_bike.last_seen lu])) ∧
    (¬ (old_bike.away_from d ⟨bj.lat, bj.lon, lu⟩ ∧ lu - old_bike.last_seen > 100) →
      ∃ bikes2, processBike d stations lu (bikes, trips) bj = some (bikes2, trips)) := by
  constructor
  · intro hc ss es hss hes
    simp only [processBike, hold, if_pos hc, hss, hes]
  · intro hnc
    refine ⟨setBike bikes bj.bike_id
      (if old_bike.has_moved ⟨bj.lat, bj.lon, lu⟩ then ⟨bj.lat, bj.lon, lu⟩
       else { old_bike with last_seen := lu }), ?_⟩
    simp only [processBike, hold, if_neg hnc]

/-- C4 witness: a tracked bike found 60 m away after 200 s produces
exactly one appended trip whose endpoints are the two resolved stations
(here both flex placeholders) and whose times are the two observation
epochs, and the stored entry becomes the new observation. -/
theorem C4_trip_iff_thresholds_witness :
    [("b", c4w_old)].lookup c4w_bj.bike_id = some c4w_old ∧
    (c4w_old.away_from c4w_d ⟨c4w_bj.lat, c4w_bj.lon, 200⟩ ∧
      (200 : ℤ) - c4w_old.last_seen > 100) ∧
    find_station c4w_d c4w_old c4w_stations = some (flexStation c4w_old) ∧
    find_station c4w_d (⟨c4w_bj.lat, c4w_bj.lon, 200⟩ : Bike) c4w_stations =
      some (flexStation ⟨c4w_bj.lat, c4w_bj.lon, 200⟩) ∧
    processBike c4w_d c4w_stations 200 ([("b", c4w_old)], []) c4w_bj =
      some (setBike [("b", c4w_old)] c4w_bj.bike_id ⟨c4w_bj.lat, c4w_bj.lon, 200⟩,
        [] ++ [new_trip (flexStation c4w_old)
          (flexStation ⟨c4w_bj.lat, c4w_bj.lon, 200⟩) c4w_old.last_seen 200]) :=
  ⟨by decide, by decide, by decide, by decide,
    (C4_trip_iff_thresholds c4w_d c4w_stations 200 [("b", c4w_old)] [] c4w_bj
        c4w_old (by decide)).1 (by decide) _ _ (by decide) (by decide)⟩

/-- C5: in the no-trip case of `src/main.py` lines 160-163 the stored
entry's `last_seen` is refreshed to the payload's `last_updated`
unconditionally, while the stored coordinates become the new
observation's exactly when the coordinates differ (`Bike.has_moved`) and
stay the old ones otherwise. -/
theorem C5_stationary_refresh (d : Dist) (stations : List Station) (lu : ℤ)
    (bikes : List (String × Bike)) (trips : List Trip) (bj : BikeJson)
    (old_bike : Bike)
    (hold : bikes.lookup bj.bike_id = some old_bike)
    (hnc : ¬ (old_bike.away_from d ⟨bj.lat, bj.lon, lu⟩ ∧
      lu - old_bike.last_seen > 100)) :
    processBike d stations lu (bikes, trips) bj =
      some (setBike bikes bj.bike_id
        (if old_bike.has_moved ⟨bj.lat, bj.lon, lu⟩ then ⟨bj.lat, bj.lon, lu⟩
         else { old_bike with last_seen := lu }), trips) ∧
    (if old_bike.has_moved ⟨bj.lat, bj.lon, lu⟩ then (⟨bj.lat, bj.lon, lu⟩ : Bike)
     else { old_bike with last_seen := lu }).last_seen = lu ∧
    (old_bike.has_moved ⟨bj.lat, bj.lon, lu⟩ →
      (if old_bike.has_moved ⟨bj.lat, bj.lon, lu⟩ then (⟨bj.lat, bj.lon, lu⟩ : Bike)
       else { old_bike with last_seen := lu }) = ⟨bj.lat, bj.lon, lu⟩) ∧
    (¬ old_bike.has_moved ⟨bj.lat, bj.lon, lu⟩ →
      (if old_bike.has_moved ⟨bj.lat, bj.lon, lu⟩ then (⟨bj.lat, bj.lon, lu⟩ : Bike)
       else { old_bike with last_seen := lu }) =
        { old_bike with last_seen := lu }) := by
  refine ⟨?_, ?_, fun hm => if_pos hm, fun hm => if_neg hm⟩
  · simp only [processBike, hold, if_neg hnc]
  · split <;> rfl

/-- C5 witness: a tracked bike 30 m away (below the 50 m threshold) with
changed coordinates: the stored entry becomes the new observation, whose
`last_seen` is the payload epoch. -/
theorem C5_stationary_refresh_witness :
    [("b", c5w_old)].lookup c5w_bj.bike_id = some c5w_old ∧
    ¬ (c5w_old.away_from c5w_d ⟨c5w_bj.lat, c5w_bj.lon, 1050⟩ ∧
      (1050 : ℤ) - c5w_old.last_seen > 100) ∧
    c5w_old.has_moved ⟨c5w_bj.lat, c5w_bj.lon, 1050⟩ ∧
    processBike c5w_d [] 1050 ([("b", c5w_old)], []) c5w_bj =
      some (setBike [("b", c5w_old)] c5w_bj.bike_id
        (if c5w_old.has_moved ⟨c5w_bj.lat, c5w_bj.lon, 1050⟩
         then ⟨c5w_bj.lat, c5w_bj.lon, 1050⟩
         else { c5w_old with last_seen := 1050 }), []) :=
  ⟨by decide, by decide, by decide,
    (C5_stationary_refresh c5w_d [] 1050 [("b", c5w_old)] [] c5w_bj c5w_old
      (by decide) (by decide)).1⟩

/-- C6: a payload repeating the stored `last_updated` is a complete
no-op: `BikeRegistry.update` returns the registry unchanged — same fleet
dict, same trip log, same `ttl` and `last_updated`
(`src/main.py` lines 135-136). -/
theorem C6_duplicate_payload_noop (d : Dist) (st : BikeRegistry) (pl : Payload)
    (h : st.last_updated = some pl.last_updated) :
    BikeRegistry.update d st (some pl) = some st := by
  simp only [BikeRegistry.update, if_pos h]

/-- C6 witness: resubmitting a payload with the stored
`last_updated = 500` leaves the registry exactly as it was. -/
theorem C6_duplicate_payload_noop_witness :
    c6w_st.last_updated = some c6w_pl.last_updated ∧
    BikeRegistry.update zeroDist c6w_st (some c6w_pl) = some c6w_st :=
  ⟨rfl, C6_duplicate_payload_noop zeroDist c6w_st c6w_pl rfl⟩

/-- C7 (amended): only a payload whose `last_updated` *equals* the stored
value is skipped; a strictly smaller (regressed) `last_updated` is
processed like any fresh payload — reconciliation runs and the stored
`last_updated` and `ttl` are overwritten with the regressed payload's
values (`src/main.py` line 135 tests equality only). -/
theorem C7_stale_payload_processed (d : Dist) (st : BikeRegistry)
    (pl : Payload) (st2 : BikeRegistry)
    (hne : st.last_updated ≠ some pl.last_updated)
    (h : BikeRegistry.update d st (some pl) = some st2) :
    st2.last_updated = some pl.last_updated ∧ st2.ttl = some pl.ttl := by
  simp only [BikeRegistry.update, if_neg hne] at h
  rcases hfold : pl.bikes.foldlM (processBike d st.stations pl.last_updated)
      (st.bikes, st.trips) with _ | res
  · rw [hfold] at h; exact absurd h (by simp)
  · rw [hfold] at h
    injection h with h
    subst h
    exact ⟨rfl, rfl⟩

/-- C7 witness: the concrete regressed payload `c7_pl` is processed and
overwrites the stored `last_updated`/`ttl`. -/
theorem C7_stale_payload_processed_witness :
    c7_st.last_updated ≠ some c7_pl.last_updated ∧
    BikeRegistry.update zeroDist c7_st (some c7_pl) = some c7_st2 ∧
    (c7_st2.last_updated = some c7_pl.last_updated ∧
      c7_st2.ttl = some c7_pl.ttl) :=
  ⟨by decide, by decide,
    C7_stale_payload_processed zeroDist c7_st c7_pl c7_st2 (by decide) (by decide)⟩

/-- C7 counterexample: a payload whose `last_updated = 100` regresses
below the stored 200 is *not* rejected: reconciliation runs (the payload's
bike is inserted into the fleet dict) and the stored
`last_updated`/`ttl` take the regressed values, so state is mutated. -/
theorem C7_regression_not_rejected :
    c7_pl.last_updated < 200 ∧
    c7_st.last_updated = some 200 ∧
    BikeRegistry.update zeroDist c7_st (some c7_pl) = some c7_st2 ∧
    c7_st2 ≠ c7_st := by decide

/-- C8 (amended): construction fails exactly when the station source
cannot be fetched or decoded; any successfully decoded station list —
including the empty one — yields a registry
(`src/main.py` lines 110-120). -/
theorem C8_init_fails_iff_fetch_fails (city : String)
    (stations_json : Option (List Station)) :
    (BikeRegistry.init city stations_json).isSome ↔ stations_json.isSome := by
  cases stations_json <;> simp [BikeRegistry.init]

/-- C8 counterexample: an empty (but well-formed) station list does not
make construction fail: `BikeRegistry.init` succeeds and returns a
registry with an empty station index, contradicting the requirement that
an empty station list cause construction to fail. -/
theorem C8_empty_station_list_accepted :
    BikeRegistry.init "Berlin" (some []) =
      some ⟨"Berlin", [], none, none, [], []⟩ := rfl

/-- Helper: replacing the value stored under key `k` does not affect
lookups of a different key. -/
theorem lookup_map_replace (bs : List (String × Bike)) (k vid : String)
    (v : Bike) (h : vid ≠ k) :
    (bs.map (fun p => if p.1 = k then (k, v) else p)).lookup vid =
      bs.lookup vid := by
  induction bs with
  | nil => rfl
  | cons p bs ih =>
    obtain ⟨pk, pv⟩ := p
    rw [List.map_cons]
    show List.lookup vid ((if pk = k then (k, v) else (pk, pv)) ::
        List.map (fun p => if p.1 = k then (k, v) else p) bs) =
      List.lookup vid ((pk, pv) :: bs)
    by_cases hpk : pk = k
    · rw [if_pos hpk]
      have h1 : (vid == k) = false := beq_eq_false_iff_ne.mpr h
      have h2 : (vid == pk) = false := by rw [hpk]; exact h1
      simp only [List.lookup, h1, h2]
      exact ih
    · rw [if_neg hpk]
      rcases hv : vid == pk with _ | _
      · simp only [List.lookup, hv]
        exact ih
      · simp only [List.lookup, hv]

/-- Helper: appending a binding for key `k` does not affect lookups of a
different key. -/
theorem lookup_append_single (bs : List (String × Bike)) (k vid : String)
    (v : Bike) (h : vid ≠ k) :
    (bs ++ [(k, v)]).lookup vid = bs.lookup vid := by
  induction bs with
  | nil =>
    simp only [List.nil_append, List.lookup,
      beq_eq_false_iff_ne.mpr h]
  | cons p bs ih =>
    obtain ⟨pk, pv⟩ := p
    rcases hv : vid == pk with _ | _
    · simp only [List.cons_append, List.lookup, hv]
      exact ih
    · simp only [List.cons_append, List.lookup, hv]

/-- Helper: `setBike` under key `k` does not affect lookups of a
different key. -/
theorem lookup_setBike_ne (bs : List (String × Bike)) (k vid : String)
    (v : Bike) (h : vid ≠ k) :
    (setBike bs k v).lookup vid = bs.lookup vid := by
  unfold setBike
  split
  · exact lookup_map_replace bs k vid v h
  · exact lookup_append_single bs k vid v h

/-- Helper: one step of the per-bike loop never creates an entry for an
absent id `vid` whose payload occurrences are all disabled. -/
theorem processBike_absent (d : Dist) (stations : List Station) (lu : ℤ)
    (acc acc2 : List (String × Bike) × List Trip) (bj : BikeJson)
    (vid : String)
    (habs : acc.1.lookup vid = none)
    (hbj : bj.bike_id = vid → bj.is_disabled ≠ 0)
    (hp : processBike d stations lu acc bj = some acc2) :
    acc2.1.lookup vid = none := by
  rcases hl : acc.1.lookup bj.bike_id with _ | old_bike
  · simp only [processBike, hl] at hp
    by_cases hd : bj.is_disabled = 0
    · have hnv : vid ≠ bj.bike_id := by
        rintro rfl
        exact hbj rfl hd
      rw [if_pos hd] at hp
      injection hp with hp
      subst hp
      rw [lookup_setBike_ne _ _ _ _ hnv]
      exact habs
    · rw [if_neg hd] at hp
      injection hp with hp
      subst hp
      exact habs
  · have hnv : vid ≠ bj.bike_id := by
      rintro rfl
      rw [habs] at hl
      cases hl
    simp only [processBike, hl] at hp
    split at hp
    · rcases h1 : find_station d old_bike stations with _ | ss
      · rw [h1] at hp
        cases hp
      · rw [h1] at hp
        rcases h2 : find_station d ⟨bj.lat, bj.lon, lu⟩ stations with _ | es
        · rw [h2] at hp
          cases hp
        · rw [h2] at hp
          injection hp with hp
          subst hp
          rw [lookup_setBike_ne _ _ _ _ hnv]
          exact habs
    · injection hp with hp
      subst hp
      rw [lookup_setBike_ne _ _ _ _ hnv]
      exact habs

/-- Helper: the whole per-payload fold never creates an entry for an
absent id whose payload occurrences are all disabled. -/
theorem foldlM_processBike_absent (d : Dist) (stations : List Station)
    (lu : ℤ) (l : List BikeJson) :
    ∀ acc acc2 vid, acc.1.lookup vid = none →
      (∀ bj ∈ l, bj.bike_id = vid → bj.is_disabled ≠ 0) →
      l.foldlM (processBike d stations lu) acc = some acc2 →
      acc2.1.lookup vid = none := by
  induction l with
  | nil =>
    intro acc acc2 vid habs _ hf
    rw [List.foldlM_nil] at hf
    obtain rfl : acc = acc2 := by simpa using hf
    exact habs
  | cons x xs ih =>
    intro acc acc2 vid habs hall hf
    rw [List.foldlM_cons] at hf
    rcases hx : processBike d stations lu acc x with _ | acc1
    · rw [hx] at hf
      exact Option.noConfusion hf
    · rw [hx] at hf
      exact ih acc1 acc2 vid
        (processBike_absent d stations lu acc acc1 x vid habs
          (hall x (List.mem_cons_self x xs)) hx)
        (fun bj hm => hall bj (List.mem_cons_of_mem x hm)) hf

/-- C10: a vehicle id absent from the fleet dict whose observations in
the payload are all disabled (`is_disabled ≠ 0`) is never inserted: after
the payload's reconciliation the fleet dict still has no entry for it
(`src/main.py` lines 164-165 insert an unseen bike only when
`is_disabled == 0`). -/
theorem C10_disabled_unseen_not_inserted (d : Dist) (st : BikeRegistry)
    (pl : Payload) (st2 : BikeRegistry) (vid : String)
    (hupd : BikeRegistry.update d st (some pl) = some st2)
    (habs : st.bikes.lookup vid = none)
    (hdis : ∀ bj ∈ pl.bikes, bj.bike_id = vid → bj.is_disabled ≠ 0) :
    st2.bikes.lookup vid = none := by
  by_cases hdup : st.last_updated = some pl.last_updated
  · simp only [BikeRegistry.update, if_pos hdup] at hupd
    injection hupd with hupd
    subst hupd
    exact habs
  · simp only [BikeRegistry.update, if_neg hdup] at hupd
    rcases hfold : pl.bikes.foldlM (processBike d st.stations pl.last_updated)
        (st.bikes, st.trips) with _ | res
    · rw [hfold] at hupd
      cases hupd
    · rw [hfold] at hupd
      injection hupd with hupd
      subst hupd
      exact foldlM_processBike_absent d st.stations pl.last_updated pl.bikes
        (st.bikes, st.trips) res vid habs hdis hfold

/-- C10 witness: a never-seen disabled bike in a concrete payload leaves
the fleet dict without an entry for it. -/
theorem C10_disabled_unseen_not_inserted_witness :
    BikeRegistry.update zeroDist c10_st (some c10_pl) = some c10_st2 ∧
    c10_st.bikes.lookup "bad" = none ∧
    (∀ bj ∈ c10_pl.bikes, bj.bike_id = "bad" → bj.is_disabled ≠ 0) ∧
    c10_st2.bikes.lookup "bad" = none :=
  ⟨by decide, rfl, by decide,
    C10_disabled_unseen_not_inserted zeroDist c10_st c10_pl c10_st2 "bad"
      (by decide) rfl (by decide)⟩

/-! ### Ordering of the rendered ISO-8601 strings

The terminal sort keys on the `started_at` strings; the following lemmas
show that on nonnegative epochs (below year 10000) the string order
agrees with the numeric epoch order, which settles C9. -/

/-- Helper: every date strictly precedes its successor day. -/
theorem dateLt_nextDay (t : Date) : dateLt t (nextDay t) := by
  unfold nextDay
  split
  · exact Or.inr ⟨rfl, Or.inr ⟨rfl, Nat.lt_succ_self _⟩⟩
  · split
    · exact Or.inr ⟨rfl, Or.inl (Nat.lt_succ_self _)⟩
    · exact Or.inl (Nat.lt_succ_self _)

/-- Helper: `dateLt` is transitive. -/
theorem dateLt_trans {a b c : Date} (h1 : dateLt a b) (h2 : dateLt b c) :
    dateLt a c := by
  unfold dateLt at *
  omega

/-- Helper: `dateOfDays` is strictly monotone. -/
theorem dateLt_dateOfDays {m n : ℕ} (h : m < n) :
    dateLt (dateOfDays m) (dateOfDays n) := by
  induction n with
  | zero => omega
  | succ n ih =>
    have hstep : dateLt (dateOfDays n) (dateOfDays (n + 1)) := by
      show dateLt (dateOfDays n) (nextDay^[n + 1] ⟨1970, 1, 1⟩)
      rw [Function.iterate_succ_apply']
      exact dateLt_nextDay (dateOfDays n)
    rcases Nat.lt_succ_iff_lt_or_eq.mp h with h2 | rfl
    · exact dateLt_trans (ih h2) hstep
    · exact hstep

/-- Helper: month lengths never exceed 31. -/
theorem daysInMonth_le_31 (y m : ℕ) : daysInMonth y m ≤ 31 := by
  unfold daysInMonth
  split
  · split <;> omega
  · split <;> omega

/-- Helper: `nextDay` preserves the field bounds. -/
theorem dateOk_nextDay {t : Date} (h : DateOk t) : DateOk (nextDay t) := by
  obtain ⟨h1, h2, h3, h4⟩ := h
  by_cases hd : t.day < daysInMonth t.year t.month
  · rw [nextDay, if_pos hd]
    have h31 := daysInMonth_le_31 t.year t.month
    refine ⟨?_, ?_, ?_, ?_⟩ <;> dsimp only <;> omega
  · by_cases hm : t.month < 12
    · rw [nextDay, if_neg hd, if_pos hm]
      refine ⟨?_, ?_, ?_, ?_⟩ <;> dsimp only <;> omega
    · rw [nextDay, if_neg hd, if_neg hm]
      refine ⟨?_, ?_, ?_, ?_⟩ <;> dsimp only <;> omega

/-- Helper: every reachable date satisfies the field bounds. -/
theorem dateOk_dateOfDays (n : ℕ) : DateOk (dateOfDays n) := by
  induction n with
  | zero =>
    show DateOk ⟨1970, 1, 1⟩
    refine ⟨?_, ?_, ?_, ?_⟩ <;> dsimp only <;> omega
  | succ n ih =>
    show DateOk (nextDay^[n + 1] ⟨1970, 1, 1⟩)
    rw [Function.iterate_succ_apply']
    exact dateOk_nextDay ih

/-- Helper: digit characters are ordered like their digits. -/
theorem digitCh_mono {a b : ℕ} (hab : a < b) (hb : b ≤ 9) :
    digitCh a < digitCh b := by
  have H : ∀ x, x < 10 → ∀ y, y < 10 → x < y → digitCh x < digitCh y := by
    decide
  exact H a (by omega) b (by omega) hab

/-- Helper: consing the same character preserves strict string order. -/
theorem lex_cons_self {c : Char} {x y : List Char} (h : x < y) :
    c :: x < c :: y :=
  List.Lex.cons h

/-- Helper: a common prefix preserves strict string order. -/
theorem lex_append_left (p : List Char) {r1 r2 : List Char} (h : r1 < r2) :
    p ++ r1 < p ++ r2 := by
  induction p with
  | nil => exact h
  | cons c p ih => exact List.Lex.cons ih

/-- Helper: equal-length prefixes compare before any suffixes. -/
theorem lex_append_eqlen {l1 l2 : List Char} (r1 r2 : List Char)
    (h : l1 < l2) (hlen : l1.length = l2.length) : l1 ++ r1 < l2 ++ r2 := by
  have h2 : List.Lex (· < ·) l1 l2 := h
  clear h
  induction h2 with
  | nil => simp at hlen
  | cons h ih =>
    exact List.Lex.cons (ih (by simpa using hlen))
  | rel h =>
    exact List.Lex.rel h

/-- Helper: two-digit zero-padded renderings are ordered like their
values. -/
theorem pad2_lt {a b : ℕ} (hab : a < b) (hb : b ≤ 99) : pad2 a < pad2 b := by
  have hd : a / 10 ≤ b / 10 := Nat.div_le_div_right hab.le
  rcases Nat.lt_or_ge (a / 10) (b / 10) with h10 | h10
  · exact List.Lex.rel (digitCh_mono h10 (by omega))
  · have heq : a / 10 = b / 10 := le_antisymm hd h10
    rw [pad2, pad2, heq]
    exact List.Lex.cons (List.Lex.rel (digitCh_mono (by omega) (by omega)))

/-- Helper: four-digit zero-padded renderings are ordered like their
values. -/
theorem pad4_lt {a b : ℕ} (hab : a < b) (hb : b ≤ 9999) : pad4 a < pad4 b := by
  have hd : a / 100 ≤ b / 100 := Nat.div_le_div_right hab.le
  rcases Nat.lt_or_ge (a / 100) (b / 100) with h100 | h100
  · exact lex_append_eqlen _ _ (pad2_lt h100 (by omega)) rfl
  · have heq : a / 100 = b / 100 := le_antisymm hd h100
    rw [pad4, pad4, heq]
    exact lex_append_left _ (pad2_lt (by omega) (by omega))

/-- Helper: `HH:MM:SS` renderings of seconds-of-day are ordered like
their values, whatever follows them. -/
theorem todChars_lt {s1 s2 : ℕ} (r1 r2 : List Char) (h : s1 < s2)
    (hs2 : s2 < 86400) :
    todChars s1 ++ r1 < todChars s2 ++ r2 := by
  unfold todChars
  simp only [List.append_assoc, List.cons_append]
  rcases Nat.lt_or_ge (s1 / 3600) (s2 / 3600) with hh | hh
  · exact lex_append_eqlen _ _ (pad2_lt hh (by omega)) rfl
  · have heq : s1 / 3600 = s2 / 3600 :=
      le_antisymm (Nat.div_le_div_right h.le) hh
    rw [heq]
    refine lex_append_left _ (lex_cons_self ?_)
    rcases Nat.lt_or_ge (s1 % 3600 / 60) (s2 % 3600 / 60) with hm | hm
    · exact lex_append_eqlen _ _ (pad2_lt hm (by omega)) rfl
    · have heqm : s1 % 3600 / 60 = s2 % 3600 / 60 :=
        le_antisymm (Nat.div_le_div_right (by omega)) hm
      rw [heqm]
      refine lex_append_left _ (lex_cons_self ?_)
      exact lex_append_eqlen _ _ (pad2_lt (by omega) (by omega)) rfl

/-- Helper: the rendered ISO strings of two epochs below year 10000 are
ordered like the epochs. -/
theorem isoChars_lt {e1 e2 : ℕ} (h : e1 < e2)
    (hy : (dateOfDays (e2 / 86400)).year ≤ 9999) :
    isoChars e1 < isoChars e2 := by
  unfold isoChars
  simp only [List.append_assoc, List.cons_append]
  rcases (by omega : e1 / 86400 < e2 / 86400 ∨
      (e1 / 86400 = e2 / 86400 ∧ e1 % 86400 < e2 % 86400)) with hd | ⟨hd, hs⟩
  · have hdl := dateLt_dateOfDays hd
    have hok2 := dateOk_dateOfDays (e2 / 86400)
    obtain ⟨-, hm2, -, hd2⟩ := hok2
    unfold dateLt at hdl
    rcases hdl with hy12 | ⟨hy12, hm12 | ⟨hm12, hd12⟩⟩
    · exact lex_append_eqlen _ _ (pad4_lt hy12 hy) rfl
    · rw [hy12]
      refine lex_append_left _ (lex_cons_self ?_)
      exact lex_append_eqlen _ _ (pad2_lt hm12 (by omega)) rfl
    · rw [hy12, hm12]
      refine lex_append_left _ (lex_cons_self
        (lex_append_left _ (lex_cons_self ?_)))
      exact lex_append_eqlen _ _ (pad2_lt hd12 (by omega)) rfl
  · rw [hd]
    refine lex_append_left _ (lex_cons_self (lex_append_left _ (lex_cons_self
      (lex_append_left _ (lex_cons_self ?_)))))
    exact todChars_lt _ _ hs (by omega)

/-- Helper: `epochISO` is strictly monotone below year 10000. -/
theorem epochISO_lt {e1 e2 : ℕ} (h : e1 < e2)
    (hy : (dateOfDays (e2 / 86400)).year ≤ 9999) :
    epochISO e1 < epochISO e2 := by
  rw [epochISO, epochISO, String.lt_iff_toList_lt, List.toList_asString,
    List.toList_asString]
  exact isoChars_lt h hy

/-- C9: after the terminal sort (which keys on the stored `started_at`
ISO-8601 UTC strings, `src/main.py` line 186), the trips' start epochs
are non-decreasing: for trips whose `started_at` is the rendering of
their (nonnegative, below year 10000) `startedAtEpoch`, sorting by the
string key agrees with ascending order of the epochs. -/
theorem C9_terminal_sort_ascending (trips : List Trip)
    (hw : ∀ t ∈ trips, ∃ e : ℕ, t.startedAtEpoch = (e : ℤ) ∧
      t.started_at = epochISO e ∧ (dateOfDays (e / 86400)).year ≤ 9999) :
    (sortTrips trips).Sorted
      (fun a b => a.startedAtEpoch ≤ b.startedAtEpoch) := by
  have hs : (sortTrips trips).Sorted trip_key_le :=
    List.sorted_insertionSort trip_key_le trips
  have hsub : ∀ t ∈ sortTrips trips, t ∈ trips := fun t ht =>
    (List.perm_insertionSort trip_key_le trips).subset ht
  refine List.Pairwise.imp_of_mem ?_ hs
  intro a b ha hb hab
  obtain ⟨e1, he1, hs1, hy1⟩ := hw a (hsub a ha)
  obtain ⟨e2, he2, hs2, hy2⟩ := hw b (hsub b hb)
  rw [he1, he2, Int.ofNat_le]
  by_contra hlt
  push_neg at hlt
  have hstr : epochISO e2 < epochISO e1 := epochISO_lt hlt hy1
  have hab2 : epochISO e1 ≤ epochISO e2 := by
    rw [← hs1, ← hs2]
    exact hab
  exact absurd hab2 (not_le_of_lt hstr)

/-- C9 witness: two concrete trips handed over out of chronological
order come out of the terminal sort with non-decreasing start epochs. -/
theorem C9_terminal_sort_ascending_witness :
    (∀ t ∈ [c9w_t1, c9w_t2], ∃ e : ℕ, t.startedAtEpoch = (e : ℤ) ∧
      t.started_at = epochISO e ∧ (dateOfDays (e / 86400)).year ≤ 9999) ∧
    (sortTrips [c9w_t1, c9w_t2]).Sorted
      (fun a b => a.startedAtEpoch ≤ b.startedAtEpoch) := by
  have hw : ∀ t ∈ [c9w_t1, c9w_t2], ∃ e : ℕ, t.startedAtEpoch = (e : ℤ) ∧
      t.started_at = epochISO e ∧ (dateOfDays (e / 86400)).year ≤ 9999 := by
    intro t ht
    rcases List.mem_cons.mp ht with rfl | ht
    · exact ⟨90000, rfl, rfl, by decide⟩
    rcases List.mem_cons.mp ht with rfl | ht
    · exact ⟨100, rfl, rfl, by decide⟩
    simp at ht
  exact ⟨hw, C9_terminal_sort_ascending [c9w_t1, c9w_t2] hw⟩

end GbfsTrip